import Mathlib

/-!
Shallow embedding of the moneylover-mcp token lifecycle core
(src/server.js and src/tokenCache.js).

Conventions of the embedding:
* JavaScript strings are Lean `String`; an absent (`undefined`) environment
  value is `Option.none`; JS truthiness of a string is the test against `""`.
* The module-level mutable variables of server.js (cachedEnvEmail,
  cachedEnvToken, envTokenPromise, cacheLoaded, cachedEnvUsesDirectToken)
  form the record `EnvState`; `envTokenPromise` is modelled by a Bool that
  is true exactly while a login-exchange promise is pending.
* External calls (token store read, write, delete; the authentication
  exchange MoneyloverClient.getToken) are recorded in an `Effect` trace,
  and their results are supplied as oracle arguments of type `Except`.
  A result that the source catches and merely logs (removeToken failure,
  readToken failure, writeToken failure) leaves the control flow unchanged,
  exactly as the try and catch blocks of the source do.
* `fetchEnvTokenStep` is the synchronous body of fetchEnvToken up to the
  point where it returns a value or a promise; `resolveExchange` is the
  continuation attached to the login promise (lines 210 to 225 of
  server.js); `fetchEnvToken` composes the two into the awaited result of
  one call, for callers that start with no pending promise.
* The token store (tokenCache.js) keys files by a base64url encoding of
  the identity, which is injective; the embedding keys the file map by the
  identity itself. File contents are abstracted to the cases the source
  distinguishes: a well formed record, JSON without a usable token field,
  and content on which JSON.parse throws.
-/

namespace MoneyloverMcp

/-- Character list b begins with character list a, comparing with `==`. -/
def leadsWith : List Char → List Char → Bool
  | [], _ => true
  | _ :: _, [] => false
  | a :: as, b :: bs => a == b && leadsWith as bs

/-- Character list l has pat as a contiguous sublist. -/
def hasSubList (pat : List Char) : List Char → Bool
  | [] => leadsWith pat []
  | c :: rest => leadsWith pat (c :: rest) || hasSubList pat rest

/-- JS String.prototype.includes: s contains pat as a substring. -/
def includesSub (s pat : String) : Bool :=
  hasSubList pat.toList s.toList

/-- JS String.prototype.toLowerCase, restricted to the per character map. -/
def toLowerCase (s : String) : String :=
  String.map Char.toLower s

/-- JS String.prototype.trim: strip leading and trailing whitespace. Written
over the character list so that it evaluates by kernel reduction. -/
def jsTrim (s : String) : String :=
  String.mk
    (((s.toList.dropWhile Char.isWhitespace).reverse.dropWhile
        Char.isWhitespace).reverse)

/-- The environment variables read by getEnvConfig (server.js lines 97 to 103).
`none` models an unset variable. Auxiliary env-file loading is treated as a
pre populated key value source, so these are the values after any such load. -/
structure Env where
  EMAIL : Option String
  PASSWORD : Option String
  MONEYLOVER_TOKEN : Option String
  MONEY_LOVER_TOKEN : Option String
deriving Repr, DecidableEq

/-- The resolved configuration triple returned by getEnvConfig. -/
structure EnvConfig where
  email : String
  password : String
  directToken : String
deriving Repr, DecidableEq

/-- getEnvConfig (server.js lines 97 to 103): trim EMAIL and PASSWORD with
empty defaults; directToken is the first of MONEYLOVER_TOKEN,
MONEY_LOVER_TOKEN whose trimmed value is truthy, else the empty string. -/
def getEnvConfig (env : Env) : EnvConfig :=
  { email := (env.EMAIL.map jsTrim).getD ""
  , password := (env.PASSWORD.map jsTrim).getD ""
  , directToken :=
      ((([env.MONEYLOVER_TOKEN, env.MONEY_LOVER_TOKEN].filterMap
          (fun v => v.map jsTrim)).find? (fun s => s ≠ "")).getD "") }

/-- The value of the code field carried by a JS error object. -/
inductive ErrCode where
  | num (n : Int)
  | str (s : String)
  | null
deriving Repr, DecidableEq

/-- A JS error as inspected by isAuthError: whether it is an instance of
MoneyloverApiError, its message, and its code field. -/
structure JsError where
  isApiError : Bool
  message : String
  code : ErrCode
deriving Repr, DecidableEq

/-- missingTokenError (server.js lines 230 to 233), a plain Error. -/
def missingTokenError : JsError :=
  { isApiError := false
  , message := "Token is required. Provide a token parameter or set EMAIL/PASSWORD, MONEYLOVER_TOKEN, or a .env file for automatic authentication."
  , code := ErrCode.null }

/-- The typeof number test with the two accepted codes, from isAuthError. -/
def isNumericAuthCode : ErrCode → Bool
  | ErrCode.num n => n == 1 || n == 401
  | _ => false

/-- isAuthError (server.js lines 235 to 244). -/
def isAuthError (e : JsError) : Bool :=
  if !e.isApiError then false
  else if isNumericAuthCode e.code then true
  else
    let message := toLowerCase e.message
    includesSub message "unauth" || includesSub message "token"

namespace TokenCache

/-- Content of one cache file, abstracted to the cases readToken
distinguishes: a record as written by writeToken, JSON whose token field is
not a usable string, and raw content on which JSON.parse throws. -/
inductive FileData where
  | record (token : String) (updatedAt : String)
  | otherJson
  | corrupt
deriving Repr, DecidableEq

/-- A non ENOENT storage failure surfaced by the token cache. -/
inductive FsError where
  | parseError
deriving Repr, DecidableEq

/-- The cache directory: a map from identity to file content (the on disk
file name is an injective base64url encoding of the identity, so keying by
the identity itself is faithful), plus whether the directory exists. -/
structure Fs where
  files : List (String × FileData)
  dirExists : Bool
deriving Repr, DecidableEq

/-- readToken (tokenCache.js lines 21 to 36): empty email gives null; a
missing file (ENOENT) gives null; unparsable content propagates the error;
otherwise the token field if it is a truthy string, else null. -/
def readToken (fs : Fs) (email : String) : Except FsError (Option String) :=
  if email = "" then Except.ok none
  else
    match fs.files.lookup email with
    | none => Except.ok none
    | some (FileData.record token _) =>
        Except.ok (if token ≠ "" then some token else none)
    | some FileData.otherJson => Except.ok none
    | some FileData.corrupt => Except.error FsError.parseError

/-- writeToken (tokenCache.js lines 38 to 56): no-op when either argument is
falsy; otherwise creates the directory and replaces the record for email. -/
def writeToken (fs : Fs) (email token updatedAt : String) : Fs :=
  if email = "" ∨ token = "" then fs
  else
    { files := (email, FileData.record token updatedAt) ::
        fs.files.filter (fun p => p.1 ≠ email)
    , dirExists := true }

/-- removeToken (tokenCache.js lines 58 to 69): no-op when email is falsy or
the record is absent (ENOENT is swallowed); otherwise removes the record. -/
def removeToken (fs : Fs) (email : String) : Fs :=
  if email = "" then fs
  else { fs with files := fs.files.filter (fun p => p.1 ≠ email) }

end TokenCache

/-- The module level cache state of server.js (lines 105 to 109). -/
structure EnvState where
  cachedEnvEmail : String
  cachedEnvToken : String
  envTokenPromise : Bool
  cacheLoaded : Bool
  cachedEnvUsesDirectToken : Bool
deriving Repr, DecidableEq

/-- The initial values of the module level variables, also what
clearEnvTokenCache restores. -/
def initialEnvState : EnvState :=
  { cachedEnvEmail := ""
  , cachedEnvToken := ""
  , envTokenPromise := false
  , cacheLoaded := false
  , cachedEnvUsesDirectToken := false }

/-- One observable external call made by the lifecycle manager. -/
inductive Effect where
  | readTokenCall (email : String)
  | removeTokenCall (email : String)
  | writeTokenCall (email : String) (token : String)
  | getTokenCall (email : String) (password : String)
deriving Repr, DecidableEq

/-- How the synchronous body of fetchEnvToken returns. -/
inductive FetchOutcome where
  | tok (t : String)
  | noCreds
  | startedExchange
  | awaitedExisting
deriving Repr, DecidableEq

/-- Result of the synchronous body of fetchEnvToken. -/
structure StepResult where
  state : EnvState
  trace : List Effect
  outcome : FetchOutcome
deriving Repr, DecidableEq

/-- The synchronous body of fetchEnvToken (server.js lines 155 to 228), up
to returning a token, null, or the (new or pending) login promise. readRes
is the oracle for the awaited readToken call: its failure case is caught
and logged by the source, so it only matters through its success value. -/
def fetchEnvTokenStep (cfg : EnvConfig) (forceRefresh : Bool) (st : EnvState)
    (readRes : Except TokenCache.FsError (Option String)) : StepResult :=
  if cfg.directToken ≠ "" then
    { state :=
        { cachedEnvUsesDirectToken := true
        , cachedEnvEmail := cfg.email
        , cachedEnvToken := cfg.directToken
        , envTokenPromise := false
        , cacheLoaded := true }
    , trace := []
    , outcome := FetchOutcome.tok cfg.directToken }
  else
    let st :=
      if st.cachedEnvUsesDirectToken then
        { st with cachedEnvUsesDirectToken := false, cachedEnvToken := ""
                , envTokenPromise := false, cacheLoaded := false }
      else st
    if cfg.email = "" ∨ cfg.password = "" then
      { state := st, trace := [], outcome := FetchOutcome.noCreds }
    else
      let st :=
        if cfg.email ≠ st.cachedEnvEmail then
          { st with cachedEnvEmail := cfg.email, cachedEnvToken := ""
                  , envTokenPromise := false, cacheLoaded := false }
        else st
      let forcePart : EnvState × List Effect :=
        if forceRefresh then
          ({ st with cachedEnvToken := "", envTokenPromise := false
                   , cacheLoaded := false }
           , [Effect.removeTokenCall cfg.email])
        else (st, [])
      let st := forcePart.1
      let tr := forcePart.2
      let readPart : EnvState × List Effect :=
        if !st.cacheLoaded then
          let st :=
            match readRes with
            | Except.ok (some t) =>
                if t ≠ "" then { st with cachedEnvToken := t } else st
            | _ => st
          ({ st with cacheLoaded := true }
           , tr ++ [Effect.readTokenCall cfg.email])
        else (st, tr)
      let st := readPart.1
      let tr := readPart.2
      if st.cachedEnvToken ≠ "" then
        { state := st, trace := tr
        , outcome := FetchOutcome.tok st.cachedEnvToken }
      else if !st.envTokenPromise then
        { state := { st with envTokenPromise := true }
        , trace := tr ++ [Effect.getTokenCall cfg.email cfg.password]
        , outcome := FetchOutcome.startedExchange }
      else
        { state := st, trace := tr, outcome := FetchOutcome.awaitedExisting }

/-- Decidable equality for Except, for evaluating concrete witnesses. -/
instance {ε α : Type} [DecidableEq ε] [DecidableEq α] :
    DecidableEq (Except ε α) := fun a b =>
  match a, b with
  | Except.ok x, Except.ok y =>
      if h : x = y then isTrue (by simp [h]) else isFalse (by simp [h])
  | Except.ok _, Except.error _ => isFalse (by simp)
  | Except.error _, Except.ok _ => isFalse (by simp)
  | Except.error x, Except.error y =>
      if h : x = y then isTrue (by simp [h]) else isFalse (by simp [h])

/-- Result of awaiting one fetchEnvToken call to completion. -/
structure FetchResult where
  state : EnvState
  trace : List Effect
  result : Except JsError (Option String)
deriving Repr, DecidableEq

/-- The continuation attached to the login promise (server.js lines 210 to
225): on exchange success, write the token to the store (failure there is
caught and logged), cache it, clear the pending promise; on exchange
failure, clear the pending promise and rethrow. -/
def resolveExchange (cfg : EnvConfig) (exch : Except JsError String)
    (st : EnvState) : EnvState × List Effect × Except JsError String :=
  match exch with
  | Except.ok token =>
      ({ st with cachedEnvToken := token, cacheLoaded := true
               , envTokenPromise := false }
       , [Effect.writeTokenCall cfg.email token]
       , Except.ok token)
  | Except.error e =>
      ({ st with envTokenPromise := false }, [], Except.error e)

/-- One awaited fetchEnvToken call (server.js lines 155 to 228): the
synchronous body followed, when it started an exchange, by the promise
continuation. exch is the oracle for MoneyloverClient.getToken. When the
body awaits an exchange started by an earlier call, the awaited value is
that same oracle and the continuation side effects belong to the earlier
caller. -/
def fetchEnvToken (cfg : EnvConfig) (forceRefresh : Bool) (st : EnvState)
    (readRes : Except TokenCache.FsError (Option String))
    (exch : Except JsError String) : FetchResult :=
  let s := fetchEnvTokenStep cfg forceRefresh st readRes
  match s.outcome with
  | FetchOutcome.tok t =>
      { state := s.state, trace := s.trace, result := Except.ok (some t) }
  | FetchOutcome.noCreds =>
      { state := s.state, trace := s.trace, result := Except.ok none }
  | FetchOutcome.startedExchange =>
      let r := resolveExchange cfg exch s.state
      { state := r.1, trace := s.trace ++ r.2.1
      , result := r.2.2.map some }
  | FetchOutcome.awaitedExisting =>
      { state := s.state, trace := s.trace, result := exch.map some }

/-- Result of one runWithResolvedToken call: final cache state, trace of
external calls, the tokens the wrapped operation was invoked with in
order, and the outcome. -/
structure RunResult (α : Type) where
  state : EnvState
  trace : List Effect
  calls : List String
  result : Except JsError α
deriving Repr, DecidableEq

/-- runWithResolvedToken (server.js lines 246 to 269). providedToken none
models an absent argument; the source tests JS falsiness, so some "" takes
the same path as none. fn receives the attempt index (0 first try, 1 the
retry) and the token. read1, exch1 are the oracles of the initial
fetchEnvToken call, read2, exch2 those of the forced refresh call. -/
def runWithResolvedToken {α : Type} (providedToken : Option String)
    (cfg : EnvConfig) (st : EnvState)
    (read1 : Except TokenCache.FsError (Option String))
    (exch1 : Except JsError String)
    (read2 : Except TokenCache.FsError (Option String))
    (exch2 : Except JsError String)
    (fn : Nat → String → Except JsError α) : RunResult α :=
  if providedToken.getD "" ≠ "" then
    { state := st, trace := [], calls := [providedToken.getD ""]
    , result := fn 0 (providedToken.getD "") }
  else
    let f1 := fetchEnvToken cfg false st read1 exch1
    match f1.result with
    | Except.error e =>
        { state := f1.state, trace := f1.trace, calls := [], result := Except.error e }
    | Except.ok none =>
        { state := f1.state, trace := f1.trace, calls := []
        , result := Except.error missingTokenError }
    | Except.ok (some token) =>
        match fn 0 token with
        | Except.ok a =>
            { state := f1.state, trace := f1.trace, calls := [token]
            , result := Except.ok a }
        | Except.error e =>
            if isAuthError e then
              let f2 := fetchEnvToken cfg true f1.state read2 exch2
              match f2.result with
              | Except.error e2 =>
                  { state := f2.state, trace := f1.trace ++ f2.trace
                  , calls := [token], result := Except.error e2 }
              | Except.ok none =>
                  { state := f2.state, trace := f1.trace ++ f2.trace
                  , calls := [token], result := Except.error e }
              | Except.ok (some t2) =>
                  { state := f2.state, trace := f1.trace ++ f2.trace
                  , calls := [token, t2], result := fn 1 t2 }
            else
              { state := f1.state, trace := f1.trace, calls := [token]
              , result := Except.error e }

/-- The preprocess step of tokenSchema (server.js lines 274 to 280): a
string argument is trimmed and an empty trim becomes undefined. -/
def tokenSchemaPreprocess (v : Option String) : Option String :=
  match v with
  | some s => let trimmed := jsTrim s; if trimmed = "" then none else some trimmed
  | none => none

/-- Whether an effect is an authentication exchange call. -/
def isExchangeEffect : Effect → Bool
  | Effect.getTokenCall _ _ => true
  | _ => false

/-- Whether an effect is a token store write. -/
def isWriteEffect : Effect → Bool
  | Effect.writeTokenCall _ _ => true
  | _ => false

/-- Number of authentication exchanges started in a trace. -/
def countExchanges (tr : List Effect) : Nat :=
  (tr.filter isExchangeEffect).length

/-- The part of a trace that happens strictly before the first
authentication exchange (the whole trace when there is none). -/
def beforeFirstExchange (tr : List Effect) : List Effect :=
  tr.takeWhile (fun e => !isExchangeEffect e)

/-- Auth failure classification in the words of the specification: the
error originates from the API layer and either carries numeric code 1 or
401 or its lowercased message contains unauth or token. -/
def authFailureSpec (e : JsError) : Prop :=
  e.isApiError = true ∧
  ((∃ n : Int, e.code = ErrCode.num n ∧ (n = 1 ∨ n = 401)) ∨
   includesSub (toLowerCase e.message) "unauth" = true ∨
   includesSub (toLowerCase e.message) "token" = true)


/-- Helper characterizing isNumericAuthCode as a proposition. -/
theorem isNumericAuthCode_iff (c : ErrCode) :
    isNumericAuthCode c = true ↔
      ∃ n : Int, c = ErrCode.num n ∧ (n = 1 ∨ n = 401) := by
  cases c <;> simp [isNumericAuthCode]

/-- Helper flattening isAuthError into one boolean expression. -/
theorem isAuthError_eq (e : JsError) :
    isAuthError e =
      (e.isApiError && (isNumericAuthCode e.code ||
        (includesSub (toLowerCase e.message) "unauth" ||
         includesSub (toLowerCase e.message) "token"))) := by
  obtain ⟨api, msg, code⟩ := e
  cases api
  · simp [isAuthError]
  · cases h : isNumericAuthCode code <;> simp [isAuthError, h]

/-- C1: when configuration resolves a non-empty direct token, fetchEnvToken
returns it immediately with an empty effect trace — no Token Store read,
write, or delete and no authentication exchange — for any forceRefresh
flag, any prior cache state, and any oracle results, independent of
identity or secret presence. -/
theorem spec_C1 (env : Env) (forceRefresh : Bool) (st : EnvState)
    (readRes : Except TokenCache.FsError (Option String))
    (exch : Except JsError String)
    (h : (getEnvConfig env).directToken ≠ "") :
    fetchEnvToken (getEnvConfig env) forceRefresh st readRes exch =
      { state :=
          { cachedEnvUsesDirectToken := true
          , cachedEnvEmail := (getEnvConfig env).email
          , cachedEnvToken := (getEnvConfig env).directToken
          , envTokenPromise := false
          , cacheLoaded := true }
      , trace := []
      , result := Except.ok (some (getEnvConfig env).directToken) } := by
  simp [fetchEnvToken, fetchEnvTokenStep, h]

/-- Environment with a direct token set, for the C1 witness. -/
def envDirect : Env :=
  { EMAIL := some "a@b.c", PASSWORD := none
  , MONEYLOVER_TOKEN := some " direct-tok ", MONEY_LOVER_TOKEN := none }

/-- Concrete instance of spec_C1, with forceRefresh set. -/
theorem spec_C1_witness :
    (getEnvConfig envDirect).directToken ≠ "" ∧
    fetchEnvToken (getEnvConfig envDirect) true initialEnvState
        (Except.ok none) (Except.ok "x") =
      { state :=
          { cachedEnvUsesDirectToken := true
          , cachedEnvEmail := (getEnvConfig envDirect).email
          , cachedEnvToken := (getEnvConfig envDirect).directToken
          , envTokenPromise := false
          , cacheLoaded := true }
      , trace := []
      , result := Except.ok (some (getEnvConfig envDirect).directToken) } :=
  ⟨by decide, spec_C1 envDirect true initialEnvState (Except.ok none)
      (Except.ok "x") (by decide)⟩

/-- C2: with identity credentials resolved and an empty cache, the first
fetchEnvToken call starts exactly one authentication exchange and leaves a
pending promise; a second call issued while that exchange is outstanding
awaits the existing promise and starts no exchange of its own, so the
exchange is started exactly once in total. -/
theorem spec_C2 (cfg : EnvConfig) (st0 : EnvState)
    (readRes2 : Except TokenCache.FsError (Option String))
    (hd : cfg.directToken = "") (he : cfg.email ≠ "") (hp : cfg.password ≠ "")
    (h0t : st0.cachedEnvToken = "") (h0p : st0.envTokenPromise = false) :
    (fetchEnvTokenStep cfg false st0 (Except.ok none)).outcome =
        FetchOutcome.startedExchange ∧
    countExchanges (fetchEnvTokenStep cfg false st0 (Except.ok none)).trace = 1 ∧
    (fetchEnvTokenStep cfg false
        (fetchEnvTokenStep cfg false st0 (Except.ok none)).state
        readRes2).outcome = FetchOutcome.awaitedExisting ∧
    countExchanges
      (fetchEnvTokenStep cfg false
        (fetchEnvTokenStep cfg false st0 (Except.ok none)).state
        readRes2).trace = 0 := by
  obtain ⟨ce, ct, ep, cl, ud⟩ := st0
  simp only at h0t h0p
  subst h0t h0p
  by_cases hem : cfg.email = ce
  · have hce : ce ≠ "" := hem ▸ he
    by_cases hud : ud <;> cases cl <;>
      simp [fetchEnvTokenStep, countExchanges, isExchangeEffect, hd, he, hp,
        hud, hem, hce]
  · by_cases hud : ud <;> cases cl <;>
      simp [fetchEnvTokenStep, countExchanges, isExchangeEffect, hd, he, hp,
        hud, hem]

/-- Identity credential configuration used by several witnesses. -/
def cfgAuthRetry : EnvConfig :=
  { email := "user@example.com", password := "secret", directToken := "" }

/-- Concrete instance of spec_C2 from the fresh process state. -/
theorem spec_C2_witness :
    (fetchEnvTokenStep cfgAuthRetry false initialEnvState
        (Except.ok none)).outcome = FetchOutcome.startedExchange ∧
    countExchanges (fetchEnvTokenStep cfgAuthRetry false initialEnvState
        (Except.ok none)).trace = 1 ∧
    (fetchEnvTokenStep cfgAuthRetry false
        (fetchEnvTokenStep cfgAuthRetry false initialEnvState
          (Except.ok none)).state (Except.ok none)).outcome =
        FetchOutcome.awaitedExisting ∧
    countExchanges (fetchEnvTokenStep cfgAuthRetry false
        (fetchEnvTokenStep cfgAuthRetry false initialEnvState
          (Except.ok none)).state (Except.ok none)).trace = 0 :=
  spec_C2 cfgAuthRetry initialEnvState (Except.ok none) (by decide)
    (by decide) (by decide) (by decide) (by decide)

/-- C3: an operation run with a lifecycle managed token that fails with an
authentication classified error triggers a forced refresh; if the refresh
yields a token the operation is retried exactly once with it and that
second outcome is final, and if the refresh yields absent the original
error is re-raised; with an explicit caller supplied token the lifecycle
manager is never consulted and no retry ever happens. -/
theorem spec_C3 {α : Type} (cfg : EnvConfig) (st : EnvState)
    (read1 read2 : Except TokenCache.FsError (Option String))
    (exch1 exch2 : Except JsError String)
    (fn : Nat → String → Except JsError α) :
    (∀ t : String, t ≠ "" →
      runWithResolvedToken (some t) cfg st read1 exch1 read2 exch2 fn =
        { state := st, trace := [], calls := [t], result := fn 0 t }) ∧
    (∀ tok t2 e,
      (fetchEnvToken cfg false st read1 exch1).result = Except.ok (some tok) →
      fn 0 tok = Except.error e → isAuthError e = true →
      (fetchEnvToken cfg true (fetchEnvToken cfg false st read1 exch1).state
          read2 exch2).result = Except.ok (some t2) →
      (runWithResolvedToken none cfg st read1 exch1 read2 exch2 fn).calls =
          [tok, t2] ∧
      (runWithResolvedToken none cfg st read1 exch1 read2 exch2 fn).result =
          fn 1 t2) ∧
    (∀ tok e,
      (fetchEnvToken cfg false st read1 exch1).result = Except.ok (some tok) →
      fn 0 tok = Except.error e → isAuthError e = true →
      (fetchEnvToken cfg true (fetchEnvToken cfg false st read1 exch1).state
          read2 exch2).result = Except.ok none →
      (runWithResolvedToken none cfg st read1 exch1 read2 exch2 fn).calls =
          [tok] ∧
      (runWithResolvedToken none cfg st read1 exch1 read2 exch2 fn).result =
          Except.error e) := by
  refine ⟨?_, ?_, ?_⟩
  · intro t ht
    simp [runWithResolvedToken, ht]
  · intro tok t2 e h1 h2 h3 h4
    simp [runWithResolvedToken, h1, h2, h3, h4]
  · intro tok e h1 h2 h3 h4
    simp [runWithResolvedToken, h1, h2, h3, h4]

/-- The auth classified error raised by a first operation attempt. -/
def errOriginal : JsError :=
  { isApiError := true, message := "user_unauthenticated", code := ErrCode.num 1 }

/-- An operation that fails with the auth error once, then succeeds with
the token it received. -/
def opFailThenEcho : Nat → String → Except JsError String :=
  fun i t => if i = 0 then Except.error errOriginal else Except.ok t

/-- Concrete instance of spec_C3: stale stored token, auth failure, one
retry with the refreshed token whose outcome is final. -/
theorem spec_C3_witness :
    (runWithResolvedToken none cfgAuthRetry initialEnvState
        (Except.ok (some "stale")) (Except.ok "unused")
        (Except.ok none) (Except.ok "fresh") opFailThenEcho).calls =
      ["stale", "fresh"] ∧
    (runWithResolvedToken none cfgAuthRetry initialEnvState
        (Except.ok (some "stale")) (Except.ok "unused")
        (Except.ok none) (Except.ok "fresh") opFailThenEcho).result =
      opFailThenEcho 1 "fresh" :=
  (spec_C3 cfgAuthRetry initialEnvState (Except.ok (some "stale"))
      (Except.ok none) (Except.ok "unused") (Except.ok "fresh")
      opFailThenEcho).2.1 "stale" "fresh" errOriginal (by decide) (by decide)
    (by decide) (by decide)

/-- C4: a forced refresh with identity credentials deletes the persisted
record before any authentication exchange appears in the trace, and a
store write appears in the trace only when the exchange succeeds. -/
theorem spec_C4 (cfg : EnvConfig) (st : EnvState)
    (readRes : Except TokenCache.FsError (Option String))
    (exch : Except JsError String)
    (hd : cfg.directToken = "") (he : cfg.email ≠ "") (hp : cfg.password ≠ "") :
    Effect.removeTokenCall cfg.email ∈
      beforeFirstExchange (fetchEnvToken cfg true st readRes exch).trace ∧
    (∀ e, exch = Except.error e →
      ∀ em t, Effect.writeTokenCall em t ∉
        (fetchEnvToken cfg true st readRes exch).trace) := by
  obtain ⟨ce, ct, ep, cl, ud⟩ := st
  by_cases hem : cfg.email = ce
  · have hce : ce ≠ "" := hem ▸ he
    by_cases hud : ud <;> cases exch <;>
      cases readRes with
      | error err =>
          simp [fetchEnvToken, fetchEnvTokenStep, resolveExchange,
            beforeFirstExchange, isExchangeEffect, hd, he, hp, hud, hem, hce]
      | ok o =>
          cases o with
          | none =>
              simp [fetchEnvToken, fetchEnvTokenStep, resolveExchange,
                beforeFirstExchange, isExchangeEffect, hd, he, hp, hud, hem, hce]
          | some t0 =>
              by_cases ht0 : t0 = "" <;>
                simp [fetchEnvToken, fetchEnvTokenStep, resolveExchange,
                  beforeFirstExchange, isExchangeEffect, hd, he, hp, hud, hem,
                  hce, ht0]
  · by_cases hud : ud <;> cases exch <;>
      cases readRes with
      | error err =>
          simp [fetchEnvToken, fetchEnvTokenStep, resolveExchange,
            beforeFirstExchange, isExchangeEffect, hd, he, hp, hud, hem]
      | ok o =>
          cases o with
          | none =>
              simp [fetchEnvToken, fetchEnvTokenStep, resolveExchange,
                beforeFirstExchange, isExchangeEffect, hd, he, hp, hud, hem]
          | some t0 =>
              by_cases ht0 : t0 = "" <;>
                simp [fetchEnvToken, fetchEnvTokenStep, resolveExchange,
                  beforeFirstExchange, isExchangeEffect, hd, he, hp, hud, hem, ht0]

/-- The transport error raised by a failing refresh exchange. -/
def errRefreshFail : JsError :=
  { isApiError := false, message := "network down", code := ErrCode.null }

/-- Concrete instance of spec_C4 with a failing exchange: the delete call
precedes the exchange and no write occurs. -/
theorem spec_C4_witness :
    Effect.removeTokenCall cfgAuthRetry.email ∈
      beforeFirstExchange (fetchEnvToken cfgAuthRetry true initialEnvState
        (Except.ok none) (Except.error errRefreshFail)).trace ∧
    Effect.writeTokenCall "user@example.com" "fresh" ∉
      (fetchEnvToken cfgAuthRetry true initialEnvState
        (Except.ok none) (Except.error errRefreshFail)).trace :=
  ⟨(spec_C4 cfgAuthRetry initialEnvState (Except.ok none)
      (Except.error errRefreshFail) (by decide) (by decide) (by decide)).1,
   (spec_C4 cfgAuthRetry initialEnvState (Except.ok none)
      (Except.error errRefreshFail) (by decide) (by decide) (by decide)).2
     errRefreshFail rfl "user@example.com" "fresh"⟩

/-- C5: isAuthError classifies an error as an authentication failure
exactly when it is a MoneyloverApiError and either carries numeric code 1
or 401 or its lowercased message contains the substring unauth or token;
every other error, including any error from outside the API layer such as
a transport error, is never classified as an authentication failure. -/
theorem spec_C5 (e : JsError) : isAuthError e = true ↔ authFailureSpec e := by
  rw [isAuthError_eq]
  simp only [authFailureSpec, Bool.and_eq_true, Bool.or_eq_true,
    isNumericAuthCode_iff]

/-- C6 counterexample: with identity credentials, a stale stored token and
an operation failing with the unauthenticated code, a forced refresh whose
exchange fails propagates the refresh (transport) error to the caller, not
the original triggering error, refuting the claim as stated. -/
theorem spec_C6_counterexample :
    isAuthError errOriginal = true ∧
    (runWithResolvedToken none cfgAuthRetry initialEnvState
        (Except.ok (some "stale")) (Except.ok "unused")
        (Except.ok none) (Except.error errRefreshFail)
        (fun _ _ => (Except.error errOriginal : Except JsError String))).result =
      Except.error errRefreshFail ∧
    errRefreshFail ≠ errOriginal := by
  refine ⟨by decide, by decide, by decide⟩

/-- C6 amended: when an authentication classified operation failure
triggers a forced refresh, a refresh call that returns absent re-raises
the original triggering error, but a refresh whose authentication exchange
itself fails propagates the refresh error to the caller, replacing the
original error. -/
theorem spec_C6_theorem {α : Type} (cfg : EnvConfig) (st : EnvState)
    (read1 read2 : Except TokenCache.FsError (Option String))
    (exch1 exch2 : Except JsError String)
    (fn : Nat → String → Except JsError α) (tok : String) (e eRef : JsError)
    (h1 : (fetchEnvToken cfg false st read1 exch1).result =
        Except.ok (some tok))
    (h2 : fn 0 tok = Except.error e) (h3 : isAuthError e = true) :
    ((fetchEnvToken cfg true (fetchEnvToken cfg false st read1 exch1).state
        read2 exch2).result = Except.error eRef →
      (runWithResolvedToken none cfg st read1 exch1 read2 exch2 fn).result =
        Except.error eRef) ∧
    ((fetchEnvToken cfg true (fetchEnvToken cfg false st read1 exch1).state
        read2 exch2).result = Except.ok none →
      (runWithResolvedToken none cfg st read1 exch1 read2 exch2 fn).result =
        Except.error e) := by
  constructor
  · intro h4
    simp [runWithResolvedToken, h1, h2, h3, h4]
  · intro h4
    simp [runWithResolvedToken, h1, h2, h3, h4]

/-- Concrete instance of spec_C6_theorem on the counterexample inputs. -/
theorem spec_C6_witness :
    (runWithResolvedToken none cfgAuthRetry initialEnvState
        (Except.ok (some "stale")) (Except.ok "unused")
        (Except.ok none) (Except.error errRefreshFail)
        (fun _ _ => (Except.error errOriginal : Except JsError String))).result =
      Except.error errRefreshFail :=
  (spec_C6_theorem cfgAuthRetry initialEnvState (Except.ok (some "stale"))
      (Except.ok none) (Except.ok "unused") (Except.error errRefreshFail)
      (fun _ _ => (Except.error errOriginal : Except JsError String))
      "stale" errOriginal errRefreshFail (by decide) (by decide)
      (by decide)).1 (by decide)

/-- C7: writing a non empty token for a non empty identity and then
reading that identity yields exactly that token, and reading an identity
with no stored record yields absent rather than an error. -/
theorem spec_C7 :
    (∀ (fs : TokenCache.Fs) (X T ts : String), X ≠ "" → T ≠ "" →
      TokenCache.readToken (TokenCache.writeToken fs X T ts) X =
        Except.ok (some T)) ∧
    (∀ (fs : TokenCache.Fs) (Y : String), fs.files.lookup Y = none →
      TokenCache.readToken fs Y = Except.ok none) := by
  constructor
  · intro fs X T ts hX hT
    simp [TokenCache.writeToken, TokenCache.readToken, hX, hT, List.lookup]
  · intro fs Y h
    by_cases hY : Y = "" <;> simp [TokenCache.readToken, hY, h]

/-- Concrete instance of spec_C7: round trip on an empty store, and a read
of an identity with no record in a non empty store. -/
theorem spec_C7_witness :
    TokenCache.readToken
        (TokenCache.writeToken ⟨[], false⟩ "a@b.c" "tok1" "ts") "a@b.c" =
      Except.ok (some "tok1") ∧
    TokenCache.readToken ⟨[("other", TokenCache.FileData.otherJson)], true⟩
        "a@b.c" = Except.ok none :=
  ⟨spec_C7.1 ⟨[], false⟩ "a@b.c" "tok1" "ts" (by decide) (by decide),
   spec_C7.2 ⟨[("other", TokenCache.FileData.otherJson)], true⟩ "a@b.c"
     (by decide)⟩

/-- C8: when the resolved identity differs from the cached identity, the
call rebinds the cache to the new identity, never adopts a pending
exchange of the old identity, and any token it returns synchronously is
the one the store holds for the new identity — never the token cached for
the previous identity. -/
theorem spec_C8 (cfg : EnvConfig) (force : Bool) (st : EnvState)
    (readRes : Except TokenCache.FsError (Option String))
    (hd : cfg.directToken = "") (he : cfg.email ≠ "") (hp : cfg.password ≠ "")
    (hdiff : cfg.email ≠ st.cachedEnvEmail) :
    (fetchEnvTokenStep cfg force st readRes).state.cachedEnvEmail = cfg.email ∧
    (fetchEnvTokenStep cfg force st readRes).outcome ≠
        FetchOutcome.awaitedExisting ∧
    (∀ t, (fetchEnvTokenStep cfg force st readRes).outcome =
        FetchOutcome.tok t → readRes = Except.ok (some t)) := by
  obtain ⟨ce, ct, ep, cl, ud⟩ := st
  simp only at hdiff
  by_cases hud : ud <;> cases force <;>
    cases readRes with
    | error err =>
        simp [fetchEnvTokenStep, hd, he, hp, hud, hdiff]
    | ok o =>
        cases o with
        | none => simp [fetchEnvTokenStep, hd, he, hp, hud, hdiff]
        | some t0 =>
            by_cases ht0 : t0 = "" <;>
              simp [fetchEnvTokenStep, hd, he, hp, hud, hdiff, ht0]

/-- A cache state bound to a previous identity with a live cached token. -/
def stOldIdentity : EnvState :=
  { cachedEnvEmail := "old@example.com"
  , cachedEnvToken := "old-token"
  , envTokenPromise := false
  , cacheLoaded := true
  , cachedEnvUsesDirectToken := false }

/-- Concrete instance of spec_C8: after an identity change the cache is
rebound and the returned token is the one read from the store. -/
theorem spec_C8_witness :
    (fetchEnvTokenStep cfgAuthRetry false stOldIdentity
        (Except.ok (some "store-token"))).state.cachedEnvEmail =
      cfgAuthRetry.email ∧
    (fetchEnvTokenStep cfgAuthRetry false stOldIdentity
        (Except.ok (some "store-token"))).outcome ≠
      FetchOutcome.awaitedExisting ∧
    Except.ok (some "store-token") =
      (Except.ok (some "store-token") :
        Except TokenCache.FsError (Option String)) :=
  ⟨(spec_C8 cfgAuthRetry false stOldIdentity (Except.ok (some "store-token"))
      (by decide) (by decide) (by decide) (by decide)).1,
   (spec_C8 cfgAuthRetry false stOldIdentity (Except.ok (some "store-token"))
      (by decide) (by decide) (by decide) (by decide)).2.1,
   ((spec_C8 cfgAuthRetry false stOldIdentity (Except.ok (some "store-token"))
      (by decide) (by decide) (by decide) (by decide)).2.2 "store-token"
     (by decide)).symm⟩

/-- C9: an explicit token argument that is empty, or that trims to empty
through the schema preprocess, takes the same path as an absent token and
falls through to resolver based resolution, while an argument that is non
empty after trimming is used directly with no lifecycle manager effects
and no retry. -/
theorem spec_C9 {α : Type} (cfg : EnvConfig) (st : EnvState)
    (read1 read2 : Except TokenCache.FsError (Option String))
    (exch1 exch2 : Except JsError String)
    (fn : Nat → String → Except JsError α) :
    (∀ s : String, jsTrim s = "" → tokenSchemaPreprocess (some s) = none) ∧
    (runWithResolvedToken (α := α) (some "") cfg st read1 exch1 read2 exch2 fn =
      runWithResolvedToken none cfg st read1 exch1 read2 exch2 fn) ∧
    (∀ s : String, jsTrim s = "" →
      runWithResolvedToken (α := α) (tokenSchemaPreprocess (some s)) cfg st
          read1 exch1 read2 exch2 fn =
        runWithResolvedToken none cfg st read1 exch1 read2 exch2 fn) ∧
    (∀ s : String, jsTrim s ≠ "" →
      tokenSchemaPreprocess (some s) = some (jsTrim s) ∧
      runWithResolvedToken (α := α) (tokenSchemaPreprocess (some s)) cfg st
          read1 exch1 read2 exch2 fn =
        { state := st, trace := [], calls := [jsTrim s]
        , result := fn 0 (jsTrim s) }) := by
  refine ⟨?_, ?_, ?_, ?_⟩
  · intro s hs
    simp [tokenSchemaPreprocess, hs]
  · simp [runWithResolvedToken]
  · intro s hs
    simp [tokenSchemaPreprocess, hs]
  · intro s hs
    constructor
    · simp [tokenSchemaPreprocess, hs]
    · simp [tokenSchemaPreprocess, runWithResolvedToken, hs]

/-- An operation that succeeds returning the token it was given. -/
def opEcho : Nat → String → Except JsError String :=
  fun _ t => Except.ok t

/-- Concrete instance of spec_C9: a blank argument is dropped by the
schema, and a padded argument is trimmed and used directly with an empty
trace. -/
theorem spec_C9_witness :
    tokenSchemaPreprocess (some "   ") = none ∧
    runWithResolvedToken (tokenSchemaPreprocess (some " tok "))
        cfgAuthRetry initialEnvState (Except.ok none) (Except.ok "u")
        (Except.ok none) (Except.ok "u") opEcho =
      { state := initialEnvState, trace := [], calls := [jsTrim " tok "]
      , result := opEcho 0 (jsTrim " tok ") } :=
  ⟨(spec_C9 cfgAuthRetry initialEnvState (Except.ok none) (Except.ok none)
      (Except.ok "u") (Except.ok "u") opEcho).1 "   " (by decide),
   ((spec_C9 cfgAuthRetry initialEnvState (Except.ok none) (Except.ok none)
      (Except.ok "u") (Except.ok "u") opEcho).2.2.2 " tok " (by decide)).2⟩

/-- C10: a failing token store read inside fetchEnvToken is caught and
treated exactly like an absent stored token, so the read error never
surfaces to the caller; and in a state with identity credentials, an empty
cached token and no pending exchange, the call still marks the cache
loaded and proceeds to start an authentication exchange. -/
theorem spec_C10 (cfg : EnvConfig) (force : Bool) (st : EnvState)
    (e : TokenCache.FsError) :
    fetchEnvTokenStep cfg force st (Except.error e) =
      fetchEnvTokenStep cfg force st (Except.ok none) ∧
    (cfg.directToken = "" → cfg.email ≠ "" → cfg.password ≠ "" →
      st.cachedEnvToken = "" → st.envTokenPromise = false →
      (fetchEnvTokenStep cfg force st (Except.error e)).outcome =
          FetchOutcome.startedExchange ∧
      (fetchEnvTokenStep cfg force st (Except.error e)).state.cacheLoaded =
          true) := by
  constructor
  · rfl
  · intro hd he hp ht hpr
    obtain ⟨ce, ct, ep, cl, ud⟩ := st
    simp only at ht hpr
    subst ht hpr
    simp only [fetchEnvTokenStep, hd, he, hp, if_neg, ite_false]
    by_cases hud : ud <;> by_cases hem : cfg.email = ce <;>
      cases force <;> cases cl <;>
        simp [hud, hem, he, hp]

/-- Concrete instance of spec_C10: a parse failure on the stored record is
swallowed and the call starts an exchange with the cache marked loaded. -/
theorem spec_C10_witness :
    (fetchEnvTokenStep cfgAuthRetry false initialEnvState
        (Except.error TokenCache.FsError.parseError)).outcome =
      FetchOutcome.startedExchange ∧
    (fetchEnvTokenStep cfgAuthRetry false initialEnvState
        (Except.error TokenCache.FsError.parseError)).state.cacheLoaded =
      true :=
  (spec_C10 cfgAuthRetry false initialEnvState
      TokenCache.FsError.parseError).2 (by decide) (by decide) (by decide)
    (by decide) (by decide)

end MoneyloverMcp
